import Mathlib

/-!
Verification of the Resolution & ID-Decoding Engine of `enrich_data.py`
(uma-parent-viewer).

The Python source is shallowly embedded as executable Lean definitions:

* Python strings are Lean `String`s; the string operations the source uses
  (`strip`, `split`, `replace`, `title`, substring test, `int(...)`) are
  implemented over `List Char` with Python's semantics.
* JSON objects are Lean structures whose `Option` fields record key
  presence; reference tables are association lists keyed by the decimal
  string of the numeric ID (`Nat.repr`), mirroring `str(id)` keying.
* Fallible constructs (`int(value)` raising `ValueError` in
  `parse_condition`, `names[0]` raising `IndexError` in `get_chara_info`)
  are modelled with `Except Unit`; everything that cannot raise is a pure
  function.
* Python float formatting `f"{a/b:.Nf}"`, applied by the source to exact
  integer inputs, is modelled as exact decimal rounding of the rational
  a/b to N places with ties to even, which agrees with IEEE double
  formatting except on ties that are not exactly representable in binary.
-/

/-! ## Python string primitives (over `List Char`) -/

/-- Python's `str.strip` whitespace set: space, tab, newline, carriage
return, vertical tab, form feed. -/
def isPyWhitespace (c : Char) : Bool :=
  c = ' ' || c = '\t' || c = '\n' || c = '\r' || c = '\x0b' || c = '\x0c'

/-- Python `s.strip()`. -/
def stripList (cs : List Char) : List Char :=
  ((cs.dropWhile isPyWhitespace).reverse.dropWhile isPyWhitespace).reverse

/-- Python `s.split(sep)` for a one-character separator (the source only
splits on `"&"`).  `"".split(sep) = [""]`. -/
def splitChar (sep : Char) : List Char → List (List Char)
  | [] => [[]]
  | c :: cs =>
    match splitChar sep cs with
    | [] => [[]]
    | p :: ps => if c = sep then [] :: p :: ps else (c :: p) :: ps

/-- Split at the first occurrence of `sep` (Python `s.split(sep, 1)` when
`sep` occurs); `none` when `sep` does not occur, so `(splitFirst sep
s).isSome` is Python's `sep in s`. -/
def splitFirst (sep : List Char) : List Char → Option (List Char × List Char)
  | [] => if sep = [] then some ([], []) else none
  | c :: cs =>
    if sep.isPrefixOf (c :: cs) then some ([], (c :: cs).drop sep.length)
    else
      match splitFirst sep cs with
      | some (a, b) => some (c :: a, b)
      | none => none

/-- Auxiliary for `replaceAll`; the fuel starts at the string length, which
bounds the number of steps since `old` is nonempty at every call site. -/
def replaceAux (old new : List Char) : Nat → List Char → List Char
  | _, [] => []
  | 0, s => s
  | fuel + 1, c :: cs =>
    if old.isPrefixOf (c :: cs) then new ++ replaceAux old new fuel ((c :: cs).drop old.length)
    else c :: replaceAux old new fuel cs

/-- Python `s.replace(old, new)`: replace every non-overlapping occurrence,
left to right (call sites use the nonempty patterns `"_random"` and `"_"`). -/
def replaceAll (old new s : List Char) : List Char :=
  replaceAux old new s.length s

/-- Auxiliary for `titleCase`: the flag records whether the previous
character was a letter (Python treats non-letters as word boundaries). -/
def titleAux : Bool → List Char → List Char
  | _, [] => []
  | prevAlpha, c :: cs =>
    (if c.isAlpha then (if prevAlpha then c.toLower else c.toUpper) else c) :: titleAux c.isAlpha cs

/-- Python `s.title()` restricted to ASCII data, which is all the source
applies it to: first letter of each letter-run upper-cased, the rest
lower-cased. -/
def titleCase (cs : List Char) : List Char :=
  titleAux false cs

/-- Value of a nonempty all-digit string. -/
def digitsVal (cs : List Char) : Option Nat :=
  if cs ≠ [] ∧ cs.all Char.isDigit then
    some (cs.foldl (fun a c => a * 10 + (c.toNat - '0'.toNat)) 0)
  else none

/-- Python `int(s)` for a decimal literal: optional surrounding whitespace,
optional sign, digits; `none` models the `ValueError` raise.  (Underscore
digit grouping is not modelled; the source never feeds it.) -/
def pyIntOf (cs : List Char) : Option Int :=
  match stripList cs with
  | '+' :: rest => (digitsVal rest).map (fun n => (n : Int))
  | '-' :: rest => (digitsVal rest).map (fun n => -(n : Int))
  | rest => (digitsVal rest).map (fun n => (n : Int))

/-! ## Condition parser (`parse_condition`) -/

/-- The operator priority list of `parse_condition`, in source order. -/
def opsList : List (List Char) :=
  [">=".data, "<=".data, "==".data, "!=".data, ">".data, "<".data, "=".data]

/-- The first operator of `opsList` occurring in `term`, with the split at
its first occurrence: Python's `for op in [...]: if op in term: key, value
= term.split(op, 1); ...; break`. -/
def findOp (term : List Char) : Option (List Char × List Char × List Char) :=
  opsList.findSome? (fun op => (splitFirst op term).map (fun p => (op, p.1, p.2)))

/-- Lookup in `CONDITION_TERMS` for `phase`, defaulting to "Phase " plus the value. -/
def phaseName (v : List Char) : String :=
  if v = "0".data then "Opening Leg"
  else if v = "1".data then "Middle Leg"
  else if v = "2".data then "Final Leg"
  else "Phase " ++ String.mk v

/-- Lookup in `CONDITION_TERMS` for `running_style`, defaulting to "Style " plus the value. -/
def styleName (v : List Char) : String :=
  if v = "1".data then "Front Runner"
  else if v = "2".data then "Pace Chaser"
  else if v = "3".data then "Late Surger"
  else if v = "4".data then "End Closer"
  else "Style " ++ String.mk v

/-- Lookup in `CONDITION_TERMS` for `ground_type`, defaulting to "Ground " plus the value. -/
def groundName (v : List Char) : String :=
  if v = "1".data then "Turf"
  else if v = "2".data then "Dirt"
  else "Ground " ++ String.mk v

/-- Lookup in `CONDITION_TERMS` for `distance_type`, defaulting to "Distance " plus the value. -/
def distTypeName (v : List Char) : String :=
  if v = "1".data then "Sprint"
  else if v = "2".data then "Mile"
  else if v = "3".data then "Medium"
  else if v = "4".data then "Long"
  else "Distance " ++ String.mk v

/-- Render one stripped, nonempty clause of a condition string.  `ok none`
is the silently dropped `always` clause; `error ()` is the `ValueError`
from `int(value)` in the `order_rate >=` branch. -/
def renderTerm (term : List Char) : Except Unit (Option String) :=
  match findOp term with
  | none => Except.ok (some (String.mk (titleCase (replaceAll "_".data " ".data term))))
  | some (op, rawKey, rawValue) =>
    let key := stripList rawKey
    let value := stripList rawValue
    let opS := String.mk op
    let valueS := String.mk value
    if key = "phase".data then
      let valueName := phaseName value
      if op = "==".data ∨ op = "=".data then Except.ok (some valueName)
      else if op = ">=".data then Except.ok (some (valueName ++ "+"))
      else Except.ok (some ("phase" ++ opS ++ valueS))
    else if key = "distance_rate".data then
      if op = ">=".data then Except.ok (some ("After " ++ valueS ++ "% of race"))
      else if op = "<=".data then Except.ok (some ("Before " ++ valueS ++ "% of race"))
      else Except.ok (some (valueS ++ "% of race"))
    else if key = "order".data then
      if op = "<=".data then Except.ok (some ("Top " ++ valueS))
      else if op = ">=".data then Except.ok (some ("Position " ++ valueS ++ "+"))
      else Except.ok (some ("Position " ++ valueS))
    else if key = "order_rate".data then
      if op = "<=".data then Except.ok (some ("Top " ++ valueS ++ "%"))
      else if op = ">=".data then
        match pyIntOf value with
        | some n => Except.ok (some ("Back " ++ toString (100 - n) ++ "%"))
        | none => Except.error ()
      else Except.ok (some (valueS ++ "% of field"))
    else if key = "running_style".data then Except.ok (some (styleName value))
    else if key = "corner".data then
      if value = "0".data then Except.ok (some "Not in corner")
      else Except.ok (some ("Corner " ++ valueS))
    else if key = "is_lastspurt".data ∧ value = "1".data then Except.ok (some "Last Spurt")
    else if key = "is_finalcorner".data ∧ value = "1".data then Except.ok (some "Final Corner")
    else if key = "hp_per".data then
      if op = "<=".data then Except.ok (some ("HP ≤" ++ valueS ++ "%"))
      else if op = ">=".data then Except.ok (some ("HP ≥" ++ valueS ++ "%"))
      else Except.ok (some ("HP " ++ valueS ++ "%"))
    else if key = "activate_count_heal".data then
      Except.ok (some ("After " ++ valueS ++ " recovery skill(s)"))
    else if key = "ground_type".data then Except.ok (some (groundName value))
    else if key = "distance_type".data then Except.ok (some (distTypeName value))
    else if "_random".data.isSuffixOf key ∧ value = "1".data then
      Except.ok (some ("Random in " ++
        String.mk (titleCase (replaceAll "_".data " ".data (replaceAll "_random".data [] key)))))
    else if key = "always".data then Except.ok none
    else
      Except.ok (some (String.mk (titleCase (replaceAll "_".data " ".data key)) ++
        " " ++ opS ++ " " ++ valueS))

/-- The loop body of `parse_condition`: strip each clause, skip empty and
`always` clauses, collect the rendered texts in order. -/
def renderClauses : List (List Char) → Except Unit (List String)
  | [] => Except.ok []
  | t :: ts =>
    let t' := stripList t
    if t' = [] then renderClauses ts
    else
      match renderTerm t' with
      | Except.error e => Except.error e
      | Except.ok none => renderClauses ts
      | Except.ok (some r) =>
        match renderClauses ts with
        | Except.error e => Except.error e
        | Except.ok rest => Except.ok (r :: rest)

/-- The function `parse_condition` of `enrich_data.py`: empty input and zero rendered
clauses give `"Always"`; otherwise the rendered clauses joined with
`" & "`. -/
def parse_condition (condition : String) : Except Unit String :=
  if condition.data = [] then Except.ok "Always"
  else
    match renderClauses (splitChar '&' condition.data) with
    | Except.error e => Except.error e
    | Except.ok [] => Except.ok "Always"
    | Except.ok parts => Except.ok (String.intercalate " & " parts)

/-! ## Effect formatter (`format_effect`) -/

/-- Round `a / d` to the nearest integer, ties to even (`d > 0` at all call
sites). -/
def roundHalfEvenDiv (a d : Nat) : Nat :=
  let q := a / d
  let r := a % d
  if 2 * r < d then q
  else if d < 2 * r then q + 1
  else if q % 2 = 0 then q else q + 1

/-- Left-pad a decimal string with zeros to width `w`. -/
def padZeros (w : Nat) (s : String) : String :=
  String.mk (List.replicate (w - s.length) '0') ++ s

/-- Python `f"{num/den:.{prec}f}"` on integer `num` and positive integer
`den`, modelled as exact half-even decimal rounding of the rational
`num/den` (see the header note on float formatting).  A negative `num`
whose magnitude rounds to zero renders `"-0"`, as Python does. -/
def fmtFixed (prec : Nat) (num : Int) (den : Nat) : String :=
  let n := roundHalfEvenDiv (num.natAbs * 10 ^ prec) den
  let sign := if num < 0 then "-" else ""
  if prec = 0 then sign ++ Nat.repr n
  else sign ++ Nat.repr (n / 10 ^ prec) ++ "." ++ padZeros prec (Nat.repr (n % 10 ^ prec))

/-- A skill effect: a JSON object whose `type` and `modifier` keys may be
absent (the source reads them with `.get(key, 0)`). -/
structure Effect where
  type : Option Int
  modifier : Option Int
deriving DecidableEq

/-- The `EFFECT_TYPES` table of `enrich_data.py`. -/
def EFFECT_TYPES : List (Int × String) :=
  [(0, "No Effect"), (1, "Speed +"), (2, "Stamina +"), (3, "Power +"), (4, "Guts +"),
   (5, "Wit +"), (9, "Stamina Recovery"), (10, "Start Delay x"), (14, "Set Start Delay"),
   (21, "Current Speed +"), (22, "Current Speed + (w/ decel)"), (27, "Target Speed +"),
   (28, "Lane Move Speed +"), (31, "Acceleration +"), (35, "Change Lane"),
   (37, "Activate Random Gold"), (42, "Extend Evolved Duration")]

/-- Lookup in `EFFECT_TYPES`, defaulting to "Effect " plus the type code. -/
def effectTypeName (t : Int) : String :=
  (EFFECT_TYPES.lookup t).getD ("Effect " ++ toString t)

/-- The function `format_effect` of `enrich_data.py`. -/
def format_effect (e : Effect) : String :=
  let etype := e.type.getD 0
  let modifier := e.modifier.getD 0
  let type_name := effectTypeName etype
  if etype = 1 ∨ etype = 2 ∨ etype = 3 ∨ etype = 4 ∨ etype = 5 then
    type_name ++ toString modifier
  else if etype = 9 then "Recover " ++ fmtFixed 0 modifier 100 ++ "% Stamina"
  else if etype = 21 ∨ etype = 22 ∨ etype = 27 then
    type_name ++ fmtFixed 2 modifier 10000 ++ "m/s"
  else if etype = 31 then type_name ++ fmtFixed 4 modifier 10000
  else if etype = 10 then "Start Delay x" ++ toString modifier
  else type_name ++ " (" ++ toString modifier ++ ")"

/-! ## Skill classification (`get_skill_type`) -/

/-- Stat-buff test on one effect: `e.get("type", 0) in [1, 2, 3, 4, 5]`. -/
def isStatBuff (e : Effect) : Bool :=
  let t := e.type.getD 0
  t == 1 || t == 2 || t == 3 || t == 4 || t == 5

/-- Negative-modifier test on one effect: `e.get("modifier", 0) < 0`. -/
def isDebuff (e : Effect) : Bool :=
  e.modifier.getD 0 < 0

/-- The function `get_skill_type` of `enrich_data.py`; `none` is the Python `None`
("default based on data rarity will be set later"). -/
def get_skill_type (skill_id : Nat) (effects : List Effect) : Option String :=
  let sid := (Nat.repr skill_id).data
  if effects.any isStatBuff then some "green"
  else if effects.any isDebuff then some "blue"
  else if sid.length = 6 ∧ ("10".data.isPrefixOf sid ∨ "11".data.isPrefixOf sid) then
    some "unique"
  else if sid.length = 6 ∧ ("90".data.isPrefixOf sid ∨ "91".data.isPrefixOf sid) then
    some "inherited"
  else none

/-! ## Reference table store -/

/-- One activation variant of a skill definition; `Option` fields model the
possibly-absent JSON keys, read by the source as `.get("condition", "")`,
`.get("baseDuration", 0)`, `.get("effects", [])`. -/
structure SkillAlt where
  condition : Option String
  baseDuration : Option Int
  effects : Option (List Effect)
deriving DecidableEq

/-- A `skill_data.json` entry (a non-empty JSON object in the data). -/
structure SkillEntry where
  rarity : Option Int
  alternatives : Option (List SkillAlt)
deriving DecidableEq

/-- An `umas_global.json` / `umas_full.json` entry: a native/English name
pair and outfit labels keyed by full card id. -/
structure Uma where
  name : Option (List String)
  outfits : List (String × String)
deriving DecidableEq

/-- A `supportcardnames_global.json` entry. -/
structure SupportCardRec where
  name : Option String
  title : Option String
  chara : Option String
deriving DecidableEq

/-- The reference table store built by `load_all_data`; tables are
association lists keyed by the decimal string of the numeric ID, and a
missing or corrupt table is the empty list. -/
structure Data where
  skills_global : List (String × List String)
  skills_jp : List (String × List String)
  skill_data : List (String × SkillEntry)
  umas_global : List (String × Uma)
  umas_full : List (String × Uma)
  sparknames : List (String × String)
  racenames : List (String × String)
  outfitnames : List (String × String)
  supportcardnames : List (String × SupportCardRec)
  racetitles : List (String × String)
  nicknames : List (String × String)
deriving DecidableEq

/-! ## Skill name chain (`get_skill_name`) -/

/-- The function `get_skill_name`: Global names first (first element of the list), then
the JP table's second element.  An entry that is an empty list falls
through, exactly like the source's `len(entry) > 0` / `len(entry) > 1`
guards; the result may be the empty string, which every caller then
discards with a truthiness test. -/
def get_skill_name (data : Data) (skill_id : Nat) : Option String :=
  let key := Nat.repr skill_id
  match (data.skills_global.lookup key).bind List.head? with
  | some n => some n
  | none => (data.skills_jp.lookup key).bind (fun l => l.get? 1)

/-! ## Trait (spark) resolution (`get_spark_name`) -/

/-- Python truthiness on an optional string: an empty string is falsy. -/
def truthyStr (o : Option String) : Option String :=
  o.filter (fun s => s != "")

/-- The unique-skill decode: `middle = int(str[2:5])`, `variant =
int(str[5])` of the 8-digit spark id (for an 8-digit number these slices
are `id / 1000 % 1000` and `id / 100 % 10`), then skill id `110001 +
middle` for the alt outfit (`variant = 2`) else `100001 + middle`. -/
def uniqueSkillIdOf (spark_id : Nat) : Nat :=
  let middle := spark_id / 1000 % 1000
  let variant := spark_id / 100 % 10
  if variant = 2 then 110001 + middle else 100001 + middle

/-- FIRST tier of `get_spark_name`: unique-skill sparks.  Every id in
[10000000, 20000000) has exactly 8 decimal digits, so the source's
`len(spark_str) == 8` guard always holds here. -/
def uniqueSparkTier (data : Data) (spark_id : Nat) : Option String :=
  if 10000000 ≤ spark_id ∧ spark_id < 20000000 then
    truthyStr (get_skill_name data (uniqueSkillIdOf spark_id))
  else none

/-- The digit range `range(1, 10)` scanned inside the skill-spark tier. -/
def groupDigits : List Nat := [1, 2, 3, 4, 5, 6, 7, 8, 9]

/-- Rarity of the skill-data entry for an id, missing entries defaulting to no rarity. -/
def skillDataRarity (data : Data) (skill_id : Nat) : Option Int :=
  (data.skill_data.lookup (Nat.repr skill_id)).bind SkillEntry.rarity

/-- The first digit in 1..9 whose candidate has rarity 1 — the loop of the
skill-spark tier stops at this candidate (`break`) whether or not its name
lookup succeeds. -/
def whiteScanDigit (data : Data) (group_base : Nat) : Option Nat :=
  groupDigits.find? (fun d => skillDataRarity data (group_base + d) == some 1)

/-- The fallback loop of the skill-spark tier: first truthy Global/JP name
in the group, ignoring rarity. -/
def anySkillNameScan (data : Data) (group_base : Nat) : Option String :=
  groupDigits.findSome? (fun d => truthyStr (get_skill_name data (group_base + d)))

/-- SECOND tier of `get_spark_name`: skill sparks.  The first scan returns
the first rarity-1 candidate's name if truthy; in every other case
(rarity-1 candidate with failed name lookup, or no rarity-1 candidate)
control reaches the rarity-ignoring fallback scan. -/
def skillSparkTier (data : Data) (spark_id : Nat) : Option String :=
  if 2000000 ≤ spark_id ∧ spark_id < 3000000 then
    ((whiteScanDigit data (spark_id / 100 * 10)).bind
      (fun d => truthyStr (get_skill_name data (spark_id / 100 * 10 + d)))).or
      (anySkillNameScan data (spark_id / 100 * 10))
  else none

/-- THIRD tier of `get_spark_name`: race sparks, looked up by `1000 +
(spark_id div 100) mod 1000` in the race name table. -/
def raceSparkTier (data : Data) (spark_id : Nat) : Option String :=
  if 1000000 ≤ spark_id ∧ spark_id < 10000000 then
    truthyStr (data.racenames.lookup (Nat.repr (1000 + spark_id / 100 % 1000)))
  else none

/-- FOURTH tier of `get_spark_name`: direct lookup of the full spark id in
the generic spark name table. -/
def genericSparkTier (data : Data) (spark_id : Nat) : Option String :=
  truthyStr (data.sparknames.lookup (Nat.repr spark_id))

/-- The three decoding tiers of `get_spark_name`, in source order; each
tier either returns a truthy name or falls through to the next. -/
def decodedSparkTiers (data : Data) (spark_id : Nat) : Option String :=
  (uniqueSparkTier data spark_id).or
    ((skillSparkTier data spark_id).or (raceSparkTier data spark_id))

/-- The function `get_spark_name` of `enrich_data.py`. -/
def get_spark_name (data : Data) (spark_id : Nat) : Option String :=
  (decodedSparkTiers data spark_id).or (genericSparkTier data spark_id)

/-! ## Character / outfit name resolution (`get_chara_info`) -/

/-- The result of `get_chara_info`: a JSON object whose three keys may each
be absent. -/
structure CharaInfo where
  chara_name_en : Option String
  costume_name_en : Option String
  card_name_en : Option String
deriving DecidableEq

/-- Python `names[1] if len(names) > 1 and names[1] else names[0]`: prefer
a nonempty English element, fall back to the native element; `error ()`
models the `IndexError` when `names` is the empty list. -/
def pickEnName (names : List String) : Except Unit String :=
  match (names.get? 1).filter (fun s => s != "") with
  | some s => Except.ok s
  | none =>
    match names.head? with
    | some h => Except.ok h
    | none => Except.error ()

/-- The per-source body of `get_chara_info`, identical for the primary and
the secondary source: resolve the display name from the `name` pair
(default `["", ""]` when the key is absent) and, when the outfit table has
the full card id, the costume label and the combined card name.  (In the
secondary branch the source also guards on `"costume_name_en" not in
result`, which is vacuously true because that branch only runs when
`result` is still empty.) -/
def charaFromUma (uma : Uma) (card_id_str : String) : Except Unit CharaInfo :=
  match pickEnName (uma.name.getD ["", ""]) with
  | Except.error e => Except.error e
  | Except.ok cname =>
    match uma.outfits.lookup card_id_str with
    | some outfit => Except.ok ⟨some cname, some outfit, some (outfit ++ " " ++ cname)⟩
    | none => Except.ok ⟨some cname, none, none⟩

/-- The function `get_chara_info` of `enrich_data.py`: `chara_id = card_id div 100`; the
secondary source (`umas_full`) is consulted only when `chara_id` is absent
from the primary source (`umas_global`), because the primary branch always
sets the `chara_name_en` key whenever its lookup hits. -/
def get_chara_info (data : Data) (card_id : Nat) : Except Unit CharaInfo :=
  match data.umas_global.lookup (Nat.repr (card_id / 100)) with
  | some uma => charaFromUma uma (Nat.repr card_id)
  | none =>
    match data.umas_full.lookup (Nat.repr (card_id / 100)) with
    | some uma => charaFromUma uma (Nat.repr card_id)
    | none => Except.ok ⟨none, none, none⟩

/-! ## Skill details (`get_skill_details`) -/

/-- One formatted effect record built by `get_skill_details`. -/
structure EffectInfo where
  type : Int
  type_name : String
  modifier : Int
  readable : String
deriving DecidableEq

/-- The effect-info record: note the `"Unknown"` default for the type name
here, unlike `format_effect`'s `f"Effect {etype}"` default. -/
def mkEffectInfo (e : Effect) : EffectInfo :=
  { type := e.type.getD 0
    type_name := (EFFECT_TYPES.lookup (e.type.getD 0)).getD "Unknown"
    modifier := e.modifier.getD 0
    readable := format_effect e }

/-- The rarity tier label map with its `f"Rarity {rarity}"` default. -/
def rarityName (r : Int) : String :=
  if r = 1 ∨ r = 2 ∨ r = 3 then "White"
  else if r = 4 ∨ r = 5 then "Gold"
  else if r = 6 then "Unique"
  else "Rarity " ++ toString r

/-- The details bundle built by `get_skill_details`; `Option` fields model
possibly-absent keys of the result dict (when the definition has no
alternatives, only `rarity` is set; the duration keys are set only for a
truthy `baseDuration`). -/
structure SkillDetails where
  rarity : String
  condition : Option String
  condition_readable : Option String
  duration_base_ms : Option Int
  duration_per_1000m : Option String
  effects : Option (List EffectInfo)
  skill_type : Option String
  summary : Option String
deriving DecidableEq

/-- The bundle for a definition whose alternatives list is empty: only the
rarity label. -/
def rarityOnlyDetails (label : String) : SkillDetails :=
  ⟨label, none, none, none, none, none, none, none⟩

/-- The function `get_skill_details` of `enrich_data.py`.  Here `ok none` is the `return
None` for a missing definition (the entries of `skill_data.json` are
non-empty objects, so `if not skill_entry` is a pure presence test); only
`alternatives[0]` is consulted; the error case propagates the only
exception source, `parse_condition`. -/
def get_skill_details (data : Data) (skill_id : Nat) : Except Unit (Option SkillDetails) :=
  match data.skill_data.lookup (Nat.repr skill_id) with
  | none => Except.ok none
  | some entry =>
    let rarityLabel := rarityName (entry.rarity.getD 0)
    match entry.alternatives.getD [] with
    | [] => Except.ok (some (rarityOnlyDetails rarityLabel))
    | alt :: _ =>
      let condition := alt.condition.getD ""
      match parse_condition condition with
      | Except.error e => Except.error e
      | Except.ok condReadable =>
        let base_duration := alt.baseDuration.getD 0
        let rawEffects := alt.effects.getD []
        let effects := rawEffects.map mkEffectInfo
        let sType :=
          match get_skill_type skill_id rawEffects with
          | some t => t
          | none =>
            if rarityLabel = "Gold" then "gold"
            else if rarityLabel = "Unique" then "unique"
            else "white"
        Except.ok (some
          { rarity := rarityLabel
            condition := some condition
            condition_readable := some condReadable
            duration_base_ms := if base_duration ≠ 0 then some base_duration else none
            duration_per_1000m :=
              if base_duration ≠ 0 then some (fmtFixed 1 base_duration 1000 ++ "s") else none
            effects := some effects
            skill_type := some sType
            summary := some (condReadable ++ " → " ++
              String.intercalate ", " (effects.map EffectInfo.readable)) })

/-! ## Remaining single-table resolvers -/

/-- The function `get_race_title_name`. -/
def get_race_title_name (data : Data) (saddle_id : Nat) : Option String :=
  data.racetitles.lookup (Nat.repr saddle_id)

/-- The function `get_nickname_name`. -/
def get_nickname_name (data : Data) (nickname_id : Nat) : Option String :=
  data.nicknames.lookup (Nat.repr nickname_id)

/-- The function `get_race_cloth_name`. -/
def get_race_cloth_name (data : Data) (race_cloth_id : Nat) : Option String :=
  data.outfitnames.lookup (Nat.repr race_cloth_id)

/-- The `SUPPORT_CARD_TYPES` first-digit map. -/
def SUPPORT_CARD_TYPES : List (Char × String) :=
  [('1', "Speed"), ('2', "Stamina"), ('3', "Power"), ('4', "Guts"),
   ('5', "Wit"), ('6', "Friend"), ('7', "Group")]

/-- The result of `get_support_card_info` (each key optional). -/
structure SupportInfo where
  name_en : Option String
  title_en : Option String
  chara_en : Option String
  stype : Option String
deriving DecidableEq

/-- The function `get_support_card_info`: field presence copies the entry key
presence; the type comes from the first decimal digit of the id. -/
def get_support_card_info (data : Data) (support_card_id : Nat) : SupportInfo :=
  let sid_str := Nat.repr support_card_id
  let entry := data.supportcardnames.lookup sid_str
  { name_en := entry.bind SupportCardRec.name
    title_en := entry.bind SupportCardRec.title
    chara_en := entry.bind SupportCardRec.chara
    stype := sid_str.data.head?.bind (fun c => SUPPORT_CARD_TYPES.lookup c) }

/-! ## Character records -/

/-- One `skill_array` entry.  The outer `Option` on the derived fields is
JSON key presence, the inner `Option` is JSON null: `enrich_character`
assigns `skill_details.get(...)` verbatim, which stores `None` when the
bundle lacks the key. -/
structure Skill where
  skill_id : Option Nat
  skill_name_en : Option String
  rarity : Option (Option String)
  skill_type : Option (Option String)
  condition : Option (Option String)
  effects : Option (List EffectInfo)
  duration : Option (Option String)
  summary : Option (Option String)
deriving DecidableEq

/-- One entry of the derived `spark_array_enriched`. -/
structure SparkEntry where
  spark_id : Nat
  spark_name_en : Option String
  stars : Option Nat
deriving DecidableEq

/-- One `factor_info_array` entry (parent entries also receive `stars`). -/
structure FactorInfo where
  factor_id : Option Nat
  spark_name_en : Option String
  stars : Option Nat
deriving DecidableEq

/-- One entry of the derived `win_saddle_array_enriched`. -/
structure WinEntry where
  saddle_id : Nat
  race_name_en : Option String
deriving DecidableEq

/-- One entry of the derived `nickname_array_enriched`. -/
structure NickEntry where
  nickname_id : Nat
  nickname_name_en : Option String
deriving DecidableEq

/-- One `support_card_list` entry. -/
structure SupportEntry where
  support_card_id : Option Nat
  support_card_name_en : Option String
  support_card_title_en : Option String
  support_card_chara_en : Option String
  support_card_type : Option String
deriving DecidableEq

/-- One nested parent (`succession_chara_array`) record; only the fields
the parent-level enrichment touches are modelled. -/
structure ParentRecord where
  card_id : Option Nat
  chara_name_en : Option String
  costume_name_en : Option String
  card_name_en : Option String
  factor_info_array : List FactorInfo
deriving DecidableEq

/-- A character record, original fields plus the derived fields
`enrich_character` may add. -/
structure CharRecord where
  card_id : Option Nat
  chara_name_en : Option String
  costume_name_en : Option String
  card_name_en : Option String
  race_cloth_id : Option Nat
  race_cloth_name_en : Option String
  skill_array : List Skill
  factor_id_array : List Nat
  spark_array_enriched : Option (List SparkEntry)
  factor_info_array : List FactorInfo
  win_saddle_id_array : List Nat
  win_saddle_array_enriched : Option (List WinEntry)
  nickname_id_array : List Nat
  nickname_array_enriched : Option (List NickEntry)
  support_card_list : List SupportEntry
  succession_chara_array : List ParentRecord
deriving DecidableEq

/-! ## Enrichment orchestrator (`enrich_character`) -/

/-- Python truthiness on an optional integer field (`if card_id:` …). -/
def truthyNat (o : Option Nat) : Option Nat :=
  o.filter (fun n => n != 0)

/-- Sequential effectful map, the shape of the source's `for` loops whose
body may raise. -/
def mapE (f : α → Except Unit β) : List α → Except Unit (List β)
  | [] => Except.ok []
  | a :: as =>
    match f a with
    | Except.error e => Except.error e
    | Except.ok b =>
      match mapE f as with
      | Except.error e => Except.error e
      | Except.ok bs => Except.ok (b :: bs)

/-- The guarded `get_chara_info` call (`if card_id:` around the lookup). -/
def charaInfoOpt (data : Data) (cid : Option Nat) : Except Unit (Option CharaInfo) :=
  match truthyNat cid with
  | some i =>
    match get_chara_info data i with
    | Except.error e => Except.error e
    | Except.ok info => Except.ok (some info)
  | none => Except.ok none

/-- The per-skill assignments of `enrich_character`: the display name only
when resolved (keeping any previous value otherwise), and — whenever the
details bundle exists — the six derived keys copied verbatim from the
bundle, absent bundle values becoming stored nulls. -/
def applySkillDetails (s : Skill) (nm : Option String) (det : Option SkillDetails) : Skill :=
  match det with
  | none => { s with skill_name_en := nm.or s.skill_name_en }
  | some d =>
    { s with
      skill_name_en := nm.or s.skill_name_en
      rarity := some (some d.rarity)
      skill_type := some d.skill_type
      condition := some d.condition_readable
      effects := some (d.effects.getD [])
      duration := some d.duration_per_1000m
      summary := some d.summary }

/-- The body of the skill loop of `enrich_character`. -/
def enrichSkill (data : Data) (s : Skill) : Except Unit Skill :=
  match truthyNat s.skill_id with
  | none => Except.ok s
  | some i =>
    match get_skill_details data i with
    | Except.error e => Except.error e
    | Except.ok det => Except.ok (applySkillDetails s (truthyStr (get_skill_name data i)) det)

/-- Star level from the last two decimal digits (`int(str(id)[-2:])`,
which is `id mod 100`), accepted only in 1..3. -/
def starLevelOf (spark_id : Nat) : Option Nat :=
  if 1 ≤ spark_id % 100 ∧ spark_id % 100 ≤ 3 then some (spark_id % 100) else none

/-- One entry of `spark_array_enriched`; `get_spark_name` never returns an
empty string, so its truthiness test is just `isSome`. -/
def mkSparkEntry (data : Data) (spark_id : Nat) : SparkEntry :=
  ⟨spark_id, get_spark_name data spark_id, starLevelOf spark_id⟩

/-- The body of the `factor_info_array` loop (name only, no stars). -/
def enrichFactorInfo (data : Data) (f : FactorInfo) : FactorInfo :=
  match truthyNat f.factor_id with
  | none => f
  | some i => { f with spark_name_en := (get_spark_name data i).or f.spark_name_en }

/-- The body of a parent's `factor_info_array` loop (name and stars). -/
def enrichParentSpark (data : Data) (f : FactorInfo) : FactorInfo :=
  match truthyNat f.factor_id with
  | none => f
  | some i =>
    { f with
      spark_name_en := (get_spark_name data i).or f.spark_name_en
      stars := (starLevelOf i).or f.stars }

/-- One entry of `win_saddle_array_enriched` (race name only when truthy). -/
def mkWinEntry (data : Data) (saddle_id : Nat) : WinEntry :=
  ⟨saddle_id, truthyStr (get_race_title_name data saddle_id)⟩

/-- One entry of `nickname_array_enriched`. -/
def mkNickEntry (data : Data) (nickname_id : Nat) : NickEntry :=
  ⟨nickname_id, truthyStr (get_nickname_name data nickname_id)⟩

/-- The body of the support-card loop (`support.update(support_info)`). -/
def enrichSupport (data : Data) (s : SupportEntry) : SupportEntry :=
  match truthyNat s.support_card_id with
  | none => s
  | some i =>
    let info := get_support_card_info data i
    { s with
      support_card_name_en := info.name_en.or s.support_card_name_en
      support_card_title_en := info.title_en.or s.support_card_title_en
      support_card_chara_en := info.chara_en.or s.support_card_chara_en
      support_card_type := info.stype.or s.support_card_type }

/-- The body of the succession loop: the whole body — `parent.update(info)`
and the parent spark loop — is nested inside `if parent_card_id:`, so a
parent with an absent or zero card id is left completely untouched. -/
def enrichParent (data : Data) (p : ParentRecord) : Except Unit ParentRecord :=
  match truthyNat p.card_id with
  | none => Except.ok p
  | some i =>
    match get_chara_info data i with
    | Except.error e => Except.error e
    | Except.ok info =>
      Except.ok
        { p with
          chara_name_en := info.chara_name_en.or p.chara_name_en
          costume_name_en := info.costume_name_en.or p.costume_name_en
          card_name_en := info.card_name_en.or p.card_name_en
          factor_info_array := p.factor_info_array.map (enrichParentSpark data) }

/-- The function `enrich_character` of `enrich_data.py`.  The source mutates the record
field group by field group, in the order listed here; no group reads a
field any group writes, so the sequential mutation is equivalent to this
single batched update reading only the original record.  `dict.update`
semantics (keys present in the update win, others keep their previous
value) is `Option.or` field by field; the list-valued derived fields are
assigned only when the source id list is nonempty (`if enriched_sparks:`
and friends). -/
def enrich_character (data : Data) (c : CharRecord) : Except Unit CharRecord :=
  match charaInfoOpt data c.card_id with
  | Except.error e => Except.error e
  | Except.ok cinfo =>
    match mapE (enrichSkill data) c.skill_array with
    | Except.error e => Except.error e
    | Except.ok skills =>
      match mapE (enrichParent data) c.succession_chara_array with
      | Except.error e => Except.error e
      | Except.ok parents =>
        Except.ok
          { c with
            chara_name_en := (cinfo.bind CharaInfo.chara_name_en).or c.chara_name_en
            costume_name_en := (cinfo.bind CharaInfo.costume_name_en).or c.costume_name_en
            card_name_en := (cinfo.bind CharaInfo.card_name_en).or c.card_name_en
            race_cloth_name_en :=
              ((truthyNat c.race_cloth_id).bind
                (fun i => truthyStr (get_race_cloth_name data i))).or c.race_cloth_name_en
            skill_array := skills
            spark_array_enriched :=
              (if c.factor_id_array = [] then none
               else some (c.factor_id_array.map (mkSparkEntry data))).or c.spark_array_enriched
            factor_info_array := c.factor_info_array.map (enrichFactorInfo data)
            win_saddle_array_enriched :=
              (if c.win_saddle_id_array = [] then none
               else some (c.win_saddle_id_array.map (mkWinEntry data))).or
                c.win_saddle_array_enriched
            nickname_array_enriched :=
              (if c.nickname_id_array = [] then none
               else some (c.nickname_id_array.map (mkNickEntry data))).or
                c.nickname_array_enriched
            support_card_list := c.support_card_list.map (enrichSupport data)
            succession_chara_array := parents }

/-! ## Concrete reference-table snapshots used by the theorems -/

/-- The empty table store (every table missing or corrupt). -/
def dataEmpty : Data :=
  ⟨[], [], [], [], [], [], [], [], [], [], []⟩

/-- Snapshot for the skill-spark tier: in group base 200010, candidate
200011 has rarity 1 but no name in either skill-name table, while
candidate 200012 has rarity 2 and a Global name. -/
def dSkillTrait : Data :=
  { dataEmpty with
    skill_data := [("200011", ⟨some 1, some []⟩), ("200012", ⟨some 2, some []⟩)]
    skills_global := [("200012", ["Gold Name"])] }

/-- Snapshot whose generic spark table distinguishes two ids that differ
only in their final two decimal digits. -/
def dStarSuffix : Data :=
  { dataEmpty with sparknames := [("101", "Speed"), ("102", "Stamina")] }

/-- Snapshot with one race name, for race-spark resolution. -/
def dRace : Data :=
  { dataEmpty with racenames := [("1345", "Race X")] }

/-- Snapshot with one unique-skill name, for unique-spark resolution. -/
def dUnique : Data :=
  { dataEmpty with skills_global := [("100061", ["Triumphant Pulse"])] }

/-- Snapshot in which the primary source has character 1005 with a
native/English name pair but no outfit label, while the secondary source
has the outfit label for card 100501. -/
def dChara : Data :=
  { dataEmpty with
    umas_global := [("1005", ⟨some ["ナ", "Alpha"], []⟩)]
    umas_full := [("1005", ⟨some ["ナ", "Alpha"], [("100501", "Beta Outfit")]⟩)] }

/-- Snapshot with a skill definition without alternatives (100) and one
whose single alternative has a zero base duration (200). -/
def dNullMark : Data :=
  { dataEmpty with
    skill_data := [("100", ⟨some 1, some []⟩),
                   ("200", ⟨some 1, some [⟨some "", some 0, some []⟩]⟩)] }

/-- A sample alternative with a condition, duration and one effect. -/
def altA : SkillAlt := ⟨some "phase==2", some 500, some [⟨some 1, some 5⟩]⟩

/-- A second sample alternative. -/
def altB : SkillAlt := ⟨some "corner=0", some 0, some []⟩

/-- Snapshot with skill 300 defined by the single alternative `altA`. -/
def dAlt1 : Data :=
  { dataEmpty with skill_data := [("300", ⟨some 4, some [altA]⟩)] }

/-- Snapshot with skill 300 defined by `altA` plus a further alternative. -/
def dAlt2 : Data :=
  { dataEmpty with skill_data := [("300", ⟨some 4, some [altA, altB]⟩)] }

/-- A character record with no populated fields. -/
def charBase : CharRecord :=
  ⟨none, none, none, none, none, none, [], [], none, [], [], none, [], none, [], []⟩

/-- A raw (unenriched) skill entry holding only its id. -/
def mkSkillIn (i : Nat) : Skill :=
  ⟨some i, none, none, none, none, none, none, none⟩

/-- Character carrying the two skills of `dNullMark`. -/
def cNullMark : CharRecord :=
  { charBase with skill_array := [mkSkillIn 100, mkSkillIn 200] }

/-- A character exercising every enrichment stage: a skill, sparks, a
factor-info record, a race win, a nickname, a support card and a parent. -/
def cW : CharRecord :=
  { charBase with
    card_id := some 100501
    race_cloth_id := some 901006
    skill_array := [mkSkillIn 200012]
    factor_id_array := [2000101, 101]
    factor_info_array := [⟨some 2000101, none, none⟩]
    win_saddle_id_array := [1]
    nickname_id_array := [2]
    support_card_list := [⟨some 30028, none, none, none, none⟩]
    succession_chara_array :=
      [⟨some 100501, none, none, none, [⟨some 2000103, none, none⟩]⟩,
       ⟨none, none, none, none, [⟨some 2000103, none, none⟩]⟩] }

/-- The enrichment of `cW` under `dSkillTrait` (defined as the successful
result so the idempotence theorem can be instantiated on it). -/
def cWOut : CharRecord :=
  (enrich_character dSkillTrait cW).toOption.getD cW

/-! ## Helper lemmas -/

deriving instance DecidableEq for Except

/-- Re-applying a `dict`-style update (`Option.or`) is idempotent. -/
theorem optOrIdem (a b : Option α) : a.or (a.or b) = a.or b := by
  cases a <;> rfl

/-- Pointwise idempotent functions are idempotent under `List.map`. -/
theorem mapIdem {f : α → α} (hf : ∀ x, f (f x) = f x) (l : List α) :
    (l.map f).map f = l.map f := by
  rw [List.map_map]
  exact List.map_congr_left (fun a _ => hf a)

/-- Mapping `mapE` of a function that is idempotent on its successes is idempotent. -/
theorem mapE_idem {f : α → Except Unit α}
    (hf : ∀ a b, f a = Except.ok b → f b = Except.ok b) :
    ∀ {l l' : List α}, mapE f l = Except.ok l' → mapE f l' = Except.ok l' := by
  intro l
  induction l with
  | nil =>
    intro l' h
    unfold mapE at h
    injection h with h
    subst h
    rfl
  | cons a as ih =>
    intro l' h
    unfold mapE at h
    cases hfa : f a with
    | error e => rw [hfa] at h; exact Except.noConfusion h
    | ok b =>
      rw [hfa] at h
      cases hrest : mapE f as with
      | error e => rw [hrest] at h; exact Except.noConfusion h
      | ok bs =>
        rw [hrest] at h
        injection h with h
        subst h
        unfold mapE
        rw [hf a b hfa, ih hrest]


/-! ## Claim C7 — condition parser -/

/-- Claim C7: `parse_condition` maps the empty string to `"Always"`, maps
`"phase==2&is_lastspurt=1"` to `"Final Leg & Last Spurt"` and
`"order_rate>=70"` to `"Back 30%"`, joins rendered clauses with `" & "`,
and returns `"Always"` whenever zero clauses render. -/
theorem claim_C7 :
    parse_condition "" = Except.ok "Always"
    ∧ parse_condition "phase==2&is_lastspurt=1" = Except.ok "Final Leg & Last Spurt"
    ∧ parse_condition "order_rate>=70" = Except.ok "Back 30%"
    ∧ (∀ s : String, renderClauses (splitChar '&' s.data) = Except.ok [] →
        parse_condition s = Except.ok "Always")
    ∧ (∀ (s : String) (parts : List String),
        renderClauses (splitChar '&' s.data) = Except.ok parts → parts ≠ [] →
        parse_condition s = Except.ok (String.intercalate " & " parts)) := by
  refine ⟨rfl, rfl, rfl, ?_, ?_⟩
  · intro s h
    unfold parse_condition
    by_cases hs : s.data = []
    · rw [if_pos hs]
    · rw [if_neg hs, h]
  · intro s parts h hne
    unfold parse_condition
    by_cases hs : s.data = []
    · exfalso
      apply hne
      have h0 : renderClauses (splitChar '&' s.data) = Except.ok [] := by rw [hs]; rfl
      rw [h0] at h
      injection h with h
      exact h.symm
    · rw [if_neg hs, h]
      cases parts with
      | nil => exact absurd rfl hne
      | cons p ps => rfl

/-- Witness for C7: the `always` key renders zero clauses; a single
rendered clause joins to itself. -/
theorem claim_C7_witness :
    parse_condition "always==1" = Except.ok "Always"
    ∧ parse_condition "corner=2" = Except.ok "Corner 2" := by
  constructor
  · exact claim_C7.2.2.2.1 "always==1" rfl
  · exact claim_C7.2.2.2.2 "corner=2" ["Corner 2"] rfl (by decide)

/-! ## Claim C8 — effect formatter -/

/-- Claim C8: `format_effect` scales the modifier by effect type: types
1–5 append the raw signed modifier to the label; type 9 divides by 100 and
renders whole-percent stamina recovery; types 21, 22, 27 divide by 10000
and render 2 decimals with unit m/s; type 31 divides by 10000 and renders
4 decimals with no unit; type 10 renders the start-delay string verbatim;
every other type renders label-space-parenthesised-modifier; with the
three concrete instances of the claim. -/
theorem claim_C8 :
    format_effect ⟨some 9, some 2000⟩ = "Recover 20% Stamina"
    ∧ format_effect ⟨some 1, some 5⟩ = "Speed +5"
    ∧ format_effect ⟨some 31, some 12345⟩ = "Acceleration +1.2345"
    ∧ (∀ t m : Int, (t = 1 ∨ t = 2 ∨ t = 3 ∨ t = 4 ∨ t = 5) →
        format_effect ⟨some t, some m⟩ = effectTypeName t ++ toString m)
    ∧ (∀ m : Int,
        format_effect ⟨some 9, some m⟩ = "Recover " ++ fmtFixed 0 m 100 ++ "% Stamina")
    ∧ (∀ t m : Int, (t = 21 ∨ t = 22 ∨ t = 27) →
        format_effect ⟨some t, some m⟩ = effectTypeName t ++ fmtFixed 2 m 10000 ++ "m/s")
    ∧ (∀ m : Int, format_effect ⟨some 31, some m⟩ = "Acceleration +" ++ fmtFixed 4 m 10000)
    ∧ (∀ m : Int, format_effect ⟨some 10, some m⟩ = "Start Delay x" ++ toString m)
    ∧ (∀ t m : Int,
        ¬(t = 1 ∨ t = 2 ∨ t = 3 ∨ t = 4 ∨ t = 5 ∨ t = 9 ∨ t = 21 ∨ t = 22 ∨ t = 27 ∨
          t = 31 ∨ t = 10) →
        format_effect ⟨some t, some m⟩ = effectTypeName t ++ " (" ++ toString m ++ ")") := by
  refine ⟨rfl, rfl, rfl, ?_, fun m => rfl, ?_, fun m => rfl, fun m => rfl, ?_⟩
  · rintro t m (rfl | rfl | rfl | rfl | rfl) <;> rfl
  · rintro t m (rfl | rfl | rfl) <;> rfl
  · intro t m h
    push_neg at h
    obtain ⟨h1, h2, h3, h4, h5, h9, h21, h22, h27, h31, h10⟩ := h
    simp only [format_effect, Option.getD_some]
    rw [if_neg (by tauto), if_neg h9, if_neg (by tauto), if_neg h31, if_neg h10]

/-- Witness for C8: concrete instantiations of each conditional conjunct. -/
theorem claim_C8_witness :
    format_effect ⟨some 2, some (-40)⟩ = "Stamina +-40"
    ∧ format_effect ⟨some 27, some 2500⟩ = "Target Speed +0.25m/s"
    ∧ format_effect ⟨some 14, some 7⟩ = "Set Start Delay (7)" := by
  refine ⟨?_, ?_, ?_⟩
  · exact claim_C8.2.2.2.1 2 (-40) (by tauto)
  · exact claim_C8.2.2.2.2.2.1 27 2500 (by tauto)
  · exact claim_C8.2.2.2.2.2.2.2.2 14 7 (by decide)

/-! ## Claim C9 — skill classification precedence -/

/-- Claim C9: any stat-buff effect type in 1..5 classifies the skill
"green" even in the presence of negative modifiers, and "blue" is
assigned only when no stat-buff type is present and some modifier is
negative. -/
theorem claim_C9 :
    (∀ (sid : Nat) (effects : List Effect), (∃ e ∈ effects, isStatBuff e) →
        get_skill_type sid effects = some "green")
    ∧ (∀ (sid : Nat) (effects : List Effect), get_skill_type sid effects = some "blue" →
        (¬∃ e ∈ effects, isStatBuff e) ∧ (∃ e ∈ effects, isDebuff e)) := by
  constructor
  · intro sid effects h
    have hg : effects.any isStatBuff = true := List.any_eq_true.mpr h
    simp only [get_skill_type]
    rw [if_pos hg]
  · intro sid effects h
    simp only [get_skill_type] at h
    by_cases hg : effects.any isStatBuff = true
    · rw [if_pos hg] at h
      injection h with h
      exact absurd h (by decide)
    · rw [if_neg hg] at h
      by_cases hb : effects.any isDebuff = true
      · exact ⟨fun he => hg (List.any_eq_true.mpr he), List.any_eq_true.mp hb⟩
      · rw [if_neg hb] at h
        exfalso
        split_ifs at h <;> first
          | exact Option.noConfusion h
          | (injection h with h; exact absurd h (by decide))

/-- Witness for C9: a list holding both a stat buff and a negative
modifier is green; a blue result implies no stat buff and a negative
modifier. -/
theorem claim_C9_witness :
    get_skill_type 200601 [⟨some 1, some (-5)⟩] = some "green"
    ∧ ((¬∃ e ∈ [Effect.mk (some 9) (some (-3))], isStatBuff e)
        ∧ (∃ e ∈ [Effect.mk (some 9) (some (-3))], isDebuff e)) := by
  constructor
  · exact claim_C9.1 200601 [⟨some 1, some (-5)⟩] ⟨⟨some 1, some (-5)⟩, by simp, by decide⟩
  · exact claim_C9.2 200601 [⟨some 9, some (-3)⟩] (by decide)

/-! ## Claim C6 — unique-skill trait decoding -/

/-- Claim C6: for every trait id in [10000000, 20000000) — necessarily 8
decimal digits — decoding extracts the 3-digit middle slice and the
variant digit (`uniqueSkillIdOf`: skill id `110001 + middle` when the
variant is 2, else `100001 + middle`), resolves that skill id through the
Skill Name chain and returns the resulting (truthy) name when the chain
finds one. -/
theorem claim_C6 :
    ∀ (data : Data) (spark_id : Nat), 10000000 ≤ spark_id → spark_id < 20000000 →
    ∀ n : String, truthyStr (get_skill_name data (uniqueSkillIdOf spark_id)) = some n →
    get_spark_name data spark_id = some n := by
  intro data spark_id h1 h2 n hn
  unfold get_spark_name decodedSparkTiers uniqueSparkTier
  rw [if_pos ⟨h1, h2⟩, hn]
  rfl

/-- Witness for C6: spark 10060101 decodes to skill id 100061 and resolves
to its Global name. -/
theorem claim_C6_witness :
    (10000000 ≤ 10060101 ∧ 10060101 < 20000000 ∧ uniqueSkillIdOf 10060101 = 100061)
    ∧ get_spark_name dUnique 10060101 = some "Triumphant Pulse" :=
  ⟨by decide, claim_C6 dUnique 10060101 (by decide) (by decide) "Triumphant Pulse" (by decide)⟩

/-! ## Claim C1 — skill-trait (spark) resolution policy -/

/-- Counterexample to claim C1: in `dSkillTrait`, the group of spark
2000101 (group base 200010) has a rarity-1 candidate, 200011, whose name
lookup misses, and a rarity-2 candidate, 200012, named "Gold Name".  The
claim asserts the rarity-ignoring re-scan runs only when no rarity-1
candidate exists, so that a skill trait never resolves to a higher-rarity
name; the code instead falls through to the re-scan after the rarity-1
miss and returns the rarity-2 name. -/
theorem claim_C1_counterexample :
    (2000000 ≤ 2000101 ∧ 2000101 < 3000000 ∧ 2000101 / 100 * 10 = 200010)
    ∧ skillDataRarity dSkillTrait 200011 = some 1
    ∧ whiteScanDigit dSkillTrait 200010 = some 1
    ∧ skillDataRarity dSkillTrait 200012 = some 2
    ∧ get_skill_name dSkillTrait 200012 = some "Gold Name"
    ∧ get_spark_name dSkillTrait 2000101 = some "Gold Name" := by
  refine ⟨by decide, by decide, by decide, by decide, by decide, by decide⟩

/-- Claim C1, amended: for a trait id in [2000000, 3000000) the scan over
group base + 1 .. 9 stops at the first rarity-1 candidate and returns its
Skill Name when that lookup yields a truthy name; the rarity-ignoring
re-scan of the same range runs whenever the rarity-1 scan produced no
name — both when no rarity-1 candidate exists and when the first rarity-1
candidate's name lookup misses — so in those cases a skill trait can
resolve to a higher-rarity name. -/
theorem claim_C1_amended :
    ∀ (data : Data) (spark_id : Nat), 2000000 ≤ spark_id → spark_id < 3000000 →
    (∀ d : Nat, whiteScanDigit data (spark_id / 100 * 10) = some d →
      (∀ n, truthyStr (get_skill_name data (spark_id / 100 * 10 + d)) = some n →
        get_spark_name data spark_id = some n)
      ∧ (truthyStr (get_skill_name data (spark_id / 100 * 10 + d)) = none →
        skillSparkTier data spark_id = anySkillNameScan data (spark_id / 100 * 10)))
    ∧ (whiteScanDigit data (spark_id / 100 * 10) = none →
      skillSparkTier data spark_id = anySkillNameScan data (spark_id / 100 * 10)) := by
  intro data spark_id h1 h2
  have hu : ¬(10000000 ≤ spark_id ∧ spark_id < 20000000) := by omega
  constructor
  · intro d hd
    constructor
    · intro n hn
      unfold get_spark_name decodedSparkTiers uniqueSparkTier skillSparkTier
      rw [if_neg hu, if_pos ⟨h1, h2⟩, hd, Option.some_bind, hn]
      rfl
    · intro hn
      unfold skillSparkTier
      rw [if_pos ⟨h1, h2⟩, hd, Option.some_bind, hn]
      rfl
  · intro hw
    unfold skillSparkTier
    rw [if_pos ⟨h1, h2⟩, hw]
    rfl

/-- Witness for C1 (amended): at `dSkillTrait` and spark 2000101 the
rarity-1 scan finds digit 1, its name lookup misses, and the tier equals
the rarity-ignoring re-scan, which yields the rarity-2 name. -/
theorem claim_C1_amended_witness :
    skillSparkTier dSkillTrait 2000101 = anySkillNameScan dSkillTrait (2000101 / 100 * 10)
    ∧ anySkillNameScan dSkillTrait 200010 = some "Gold Name" := by
  constructor
  · exact ((claim_C1_amended dSkillTrait 2000101 (by decide) (by decide)).1 1
      (by decide)).2 (by decide)
  · decide

/-! ## Claim C4 — star-level invariance -/

/-- Counterexample to claim C4: ids 101 and 102 differ only in their final
two decimal digits, yet under the snapshot `dStarSuffix` the generic
spark-name tier, which keys on the full id, resolves them to different
names. -/
theorem claim_C4_counterexample :
    (101 / 100 = 102 / 100)
    ∧ get_spark_name dStarSuffix 101 = some "Speed"
    ∧ get_spark_name dStarSuffix 102 = some "Stamina"
    ∧ get_spark_name dStarSuffix 101 ≠ get_spark_name dStarSuffix 102 := by
  refine ⟨by decide, by decide, by decide, by decide⟩

/-- The unique-skill decode depends on the id only through `id div 100`. -/
theorem uniqueSkillIdOf_congr {a b : Nat} (h : a / 100 = b / 100) :
    uniqueSkillIdOf a = uniqueSkillIdOf b := by
  unfold uniqueSkillIdOf
  rw [show a / 1000 = b / 1000 by omega, show a / 100 = b / 100 from h]

/-- The unique-spark tier depends on the id only through `id div 100`. -/
theorem uniqueSparkTier_congr (data : Data) {a b : Nat} (h : a / 100 = b / 100) :
    uniqueSparkTier data a = uniqueSparkTier data b := by
  unfold uniqueSparkTier
  exact if_congr (by omega) (by rw [uniqueSkillIdOf_congr h]) rfl

/-- The skill-spark tier depends on the id only through `id div 100`. -/
theorem skillSparkTier_congr (data : Data) {a b : Nat} (h : a / 100 = b / 100) :
    skillSparkTier data a = skillSparkTier data b := by
  unfold skillSparkTier
  exact if_congr (by omega) (by rw [show a / 100 * 10 = b / 100 * 10 by rw [h]]) rfl

/-- The race-spark tier depends on the id only through `id div 100`. -/
theorem raceSparkTier_congr (data : Data) {a b : Nat} (h : a / 100 = b / 100) :
    raceSparkTier data a = raceSparkTier data b := by
  unfold raceSparkTier
  exact if_congr (by omega)
    (by rw [show 1000 + a / 100 % 1000 = 1000 + b / 100 % 1000 by omega]) rfl

/-- The three decoding tiers depend on the id only through `id div 100`. -/
theorem decodedSparkTiers_congr (data : Data) {a b : Nat} (h : a / 100 = b / 100) :
    decodedSparkTiers data a = decodedSparkTiers data b := by
  unfold decodedSparkTiers
  rw [uniqueSparkTier_congr data h, skillSparkTier_congr data h, raceSparkTier_congr data h]

/-- Claim C4, amended: two trait ids differing only in their final two
decimal digits decode identically through the unique-skill, skill-group
and race tiers, so whenever one of those tiers resolves the id,
`get_spark_name` gives the same name for both; only the generic
spark-name fallback, which keys on the full id, can distinguish them. -/
theorem claim_C4_amended :
    ∀ (data : Data) (a b : Nat), a / 100 = b / 100 →
    decodedSparkTiers data a = decodedSparkTiers data b
    ∧ ((decodedSparkTiers data a).isSome → get_spark_name data a = get_spark_name data b) := by
  intro data a b h
  have hd := decodedSparkTiers_congr data h
  refine ⟨hd, fun hs => ?_⟩
  unfold get_spark_name
  rw [hd] at hs ⊢
  obtain ⟨v, hv⟩ := Option.isSome_iff_exists.mp hs
  rw [hv]
  rfl

/-- Witness for C4 (amended): race sparks 1234501 and 1234599 share
`id div 100` and resolve through the race tier to the same name. -/
theorem claim_C4_amended_witness :
    (1234501 / 100 = 1234599 / 100)
    ∧ get_spark_name dRace 1234501 = get_spark_name dRace 1234599 :=
  ⟨by decide, (claim_C4_amended dRace 1234501 1234599 (by decide)).2 (by decide)⟩

/-! ## Claim C3 — character/outfit name resolution -/

/-- Counterexample to claim C3: in `dChara` the primary source supplies
the character name for card 100501 but no outfit label, and the secondary
source does hold the outfit label; the claim's field-by-field merge would
fill `costume_name_en` from the secondary source, but the code leaves it
unset because the secondary source is only consulted when the primary has
no entry for the character at all. -/
theorem claim_C3_counterexample :
    get_chara_info dChara 100501 = Except.ok ⟨some "Alpha", none, none⟩
    ∧ (dChara.umas_full.lookup "1005").map (fun u => u.outfits.lookup "100501")
        = some (some "Beta Outfit") := by
  refine ⟨by decide, by decide⟩

/-- Claim C3, amended: resolution takes `chara_id = card_id div 100` and
prefers the English element of the name pair, falling back to the native
element when the English one is empty; but the merge of the two sources is
per-character, not field-by-field — the secondary source is consulted only
when the primary source has no entry for `chara_id`, so a card whose
primary entry lacks the outfit label gets no costume label even when the
secondary source has one. -/
theorem claim_C3_amended :
    (∀ (data : Data) (card_id : Nat) (uma : Uma),
        data.umas_global.lookup (Nat.repr (card_id / 100)) = some uma →
        get_chara_info data card_id = charaFromUma uma (Nat.repr card_id))
    ∧ (∀ (data : Data) (card_id : Nat),
        data.umas_global.lookup (Nat.repr (card_id / 100)) = none →
        ∀ uma : Uma, data.umas_full.lookup (Nat.repr (card_id / 100)) = some uma →
        get_chara_info data card_id = charaFromUma uma (Nat.repr card_id))
    ∧ (∀ (uma : Uma) (cs natName enName : String), uma.name = some [natName, enName] →
        ∃ info : CharaInfo, charaFromUma uma cs = Except.ok info
          ∧ info.chara_name_en = some (if enName ≠ "" then enName else natName))
    ∧ (∀ (uma : Uma) (cs : String), uma.outfits.lookup cs = none →
        ∀ info : CharaInfo, charaFromUma uma cs = Except.ok info →
        info.costume_name_en = none ∧ info.card_name_en = none) := by
  refine ⟨?_, ?_, ?_, ?_⟩
  · intro data card_id uma h
    unfold get_chara_info
    rw [h]
  · intro data card_id hg uma hf
    unfold get_chara_info
    rw [hg, hf]
  · intro uma cs natName enName h
    unfold charaFromUma pickEnName
    rw [h]
    by_cases he : enName = ""
    · subst he
      simp only [Option.getD_some]
      cases ho : uma.outfits.lookup cs
      · exact ⟨_, rfl, rfl⟩
      · exact ⟨_, rfl, rfl⟩
    · have hb : (enName != "") = true := by
        simp [bne_iff_ne, he]
      simp only [Option.getD_some, List.get?, Option.filter, hb]
      cases ho : uma.outfits.lookup cs
      · refine ⟨_, rfl, ?_⟩
        simp [he]
      · refine ⟨_, rfl, ?_⟩
        simp [he]
  · intro uma cs ho info h
    unfold charaFromUma at h
    cases hp : pickEnName (uma.name.getD ["", ""]) with
    | error e => rw [hp] at h; exact Except.noConfusion h
    | ok cname =>
      rw [hp, ho] at h
      injection h with h
      subst h
      exact ⟨rfl, rfl⟩

/-- Witness for C3 (amended): concrete instantiation at `dChara`, card
100501 — primary entry present, English name preferred, no costume. -/
theorem claim_C3_amended_witness :
    get_chara_info dChara 100501 = charaFromUma ⟨some ["ナ", "Alpha"], []⟩ "100501"
    ∧ (∃ info : CharaInfo,
        charaFromUma ⟨some ["ナ", "Alpha"], []⟩ "100501" = Except.ok info
          ∧ info.chara_name_en = some (if "Alpha" ≠ "" then "Alpha" else "ナ"))
    ∧ ((⟨some "Alpha", none, none⟩ : CharaInfo).costume_name_en = none
        ∧ (⟨some "Alpha", none, none⟩ : CharaInfo).card_name_en = none) := by
  refine ⟨?_, ?_, ?_⟩
  · exact claim_C3_amended.1 dChara 100501 ⟨some ["ナ", "Alpha"], []⟩ (by decide)
  · exact claim_C3_amended.2.2.1 ⟨some ["ナ", "Alpha"], []⟩ "100501" "ナ" "Alpha" rfl
  · exact claim_C3_amended.2.2.2 ⟨some ["ナ", "Alpha"], []⟩ "100501" (by decide)
      ⟨some "Alpha", none, none⟩ (by decide)

/-- Helper: a found definition with an empty alternatives list yields the
rarity-only details bundle. -/
theorem skillDetails_rarity_only (data : Data) (sid : Nat) (e : SkillEntry)
    (h : data.skill_data.lookup (Nat.repr sid) = some e)
    (ha : e.alternatives.getD [] = []) :
    get_skill_details data sid
      = Except.ok (some (rarityOnlyDetails (rarityName (e.rarity.getD 0)))) := by
  simp only [get_skill_details, h, ha]

/-- Helper: `get_skill_details` depends only on the entry's rarity, the
first alternative, and the skill id. -/
theorem skillDetails_head_congr (d1 d2 : Data) (sid : Nat) (e1 e2 : SkillEntry)
    (h1 : d1.skill_data.lookup (Nat.repr sid) = some e1)
    (h2 : d2.skill_data.lookup (Nat.repr sid) = some e2)
    (hr : e1.rarity = e2.rarity)
    (hh : (e1.alternatives.getD []).head? = (e2.alternatives.getD []).head?) :
    get_skill_details d1 sid = get_skill_details d2 sid := by
  simp only [get_skill_details, h1, h2]
  cases hl1 : e1.alternatives.getD [] with
  | nil =>
    cases hl2 : e2.alternatives.getD [] with
    | nil => rw [hr]
    | cons b bs => rw [hl1, hl2] at hh; exact absurd hh (by simp)
  | cons a as =>
    cases hl2 : e2.alternatives.getD [] with
    | nil => rw [hl1, hl2] at hh; exact absurd hh (by simp)
    | cons b bs =>
      rw [hl1, hl2] at hh
      simp only [List.head?_cons, Option.some.injEq] at hh
      subst hh
      rw [hr]

/-! ## Claim C10 — skill details use only the first alternative -/

/-- Claim C10: the derived condition, duration, effects, classification
and summary come entirely from `alternatives[0]`: two definitions agreeing
on rarity and first alternative give identical `get_skill_details`
results regardless of further alternatives, and a definition with an
empty alternatives list yields only the rarity label. -/
theorem claim_C10 :
    (∀ (d1 d2 : Data) (sid : Nat) (e1 e2 : SkillEntry),
        d1.skill_data.lookup (Nat.repr sid) = some e1 →
        d2.skill_data.lookup (Nat.repr sid) = some e2 →
        e1.rarity = e2.rarity →
        (e1.alternatives.getD []).head? = (e2.alternatives.getD []).head? →
        get_skill_details d1 sid = get_skill_details d2 sid)
    ∧ (∀ (d : Data) (sid : Nat) (e : SkillEntry),
        d.skill_data.lookup (Nat.repr sid) = some e →
        e.alternatives.getD [] = [] →
        get_skill_details d sid
          = Except.ok (some (rarityOnlyDetails (rarityName (e.rarity.getD 0))))) :=
  ⟨fun d1 d2 sid e1 e2 h1 h2 hr hh => skillDetails_head_congr d1 d2 sid e1 e2 h1 h2 hr hh,
   fun d sid e h ha => skillDetails_rarity_only d sid e h ha⟩

/-- Witness for C10: `dAlt1` and `dAlt2` share rarity and first
alternative for skill 300 but differ in the tail; skill 100 of
`dNullMark` has no alternatives. -/
theorem claim_C10_witness :
    get_skill_details dAlt1 300 = get_skill_details dAlt2 300
    ∧ get_skill_details dNullMark 100 = Except.ok (some (rarityOnlyDetails "White")) := by
  constructor
  · exact claim_C10.1 dAlt1 dAlt2 300 ⟨some 4, some [altA]⟩ ⟨some 4, some [altA, altB]⟩
      (by decide) (by decide) rfl (by decide)
  · exact claim_C10.2 dNullMark 100 ⟨some 1, some []⟩ (by decide) (by decide)

/-! ## Claim C5 — unresolved derived values -/

/-- Counterexample to claim C5: under `dNullMark`, skill 100 (definition
with no alternatives) gets `skill_type` and `duration` stored as nulls
(`some none` — key present, value null), and skill 200 (zero base
duration) gets a null `duration`; the claim asserts those keys would be
absent rather than null. -/
theorem claim_C5_counterexample :
    (enrich_character dNullMark cNullMark).toOption.map
      (fun r => r.skill_array.map (fun s => (s.skill_type, s.duration)))
      = some [(some none, some none), (some (some "white"), some none)] := by
  decide

/-- Claim C5, amended: within `get_skill_details` unresolved values are
omitted from the bundle (a definition with no alternatives yields only the
rarity label, and a zero base duration omits the duration keys), and the
skill display name is only added when resolved; but `enrich_character`
copies the bundle's derived keys onto the skill entry unconditionally
whenever the definition exists, so a detail value missing from the bundle
is written as a null rather than omitted. -/
theorem claim_C5_amended :
    (∀ (data : Data) (sid : Nat) (e : SkillEntry),
        data.skill_data.lookup (Nat.repr sid) = some e →
        e.alternatives.getD [] = [] →
        get_skill_details data sid
          = Except.ok (some (rarityOnlyDetails (rarityName (e.rarity.getD 0)))))
    ∧ (∀ (data : Data) (s : Skill) (i : Nat) (det : Option SkillDetails),
        truthyNat s.skill_id = some i →
        get_skill_details data i = Except.ok det →
        enrichSkill data s
          = Except.ok (applySkillDetails s (truthyStr (get_skill_name data i)) det))
    ∧ (∀ (s : Skill) (nm : Option String) (d : SkillDetails),
        (applySkillDetails s nm (some d)).skill_name_en = nm.or s.skill_name_en
        ∧ (applySkillDetails s nm (some d)).rarity = some (some d.rarity)
        ∧ (applySkillDetails s nm (some d)).skill_type = some d.skill_type
        ∧ (applySkillDetails s nm (some d)).condition = some d.condition_readable
        ∧ (applySkillDetails s nm (some d)).duration = some d.duration_per_1000m
        ∧ (applySkillDetails s nm (some d)).summary = some d.summary) := by
  refine ⟨fun data sid e h ha => skillDetails_rarity_only data sid e h ha, ?_, ?_⟩
  · intro data s i det h1 h2
    simp only [enrichSkill, h1, h2]
  · intro s nm d
    exact ⟨rfl, rfl, rfl, rfl, rfl, rfl⟩

/-- Witness for C5 (amended): the no-alternatives definition yields the
rarity-only bundle, and enriching its skill stores the absent bundle
values as nulls. -/
theorem claim_C5_amended_witness :
    get_skill_details dNullMark 100 = Except.ok (some (rarityOnlyDetails "White"))
    ∧ enrichSkill dNullMark (mkSkillIn 100)
        = Except.ok (applySkillDetails (mkSkillIn 100)
            (truthyStr (get_skill_name dNullMark 100)) (some (rarityOnlyDetails "White")))
    ∧ (applySkillDetails (mkSkillIn 100) none (some (rarityOnlyDetails "White"))).skill_type
        = some none := by
  refine ⟨?_, ?_, ?_⟩
  · exact claim_C5_amended.1 dNullMark 100 ⟨some 1, some []⟩ (by decide) (by decide)
  · exact claim_C5_amended.2.1 dNullMark (mkSkillIn 100) 100 (some (rarityOnlyDetails "White"))
      (by decide) (by decide)
  · exact (claim_C5_amended.2.2 (mkSkillIn 100) none (rarityOnlyDetails "White")).2.2.1

/-! ## Claim C2 — idempotence of enrichment -/

/-- The `factor_info_array` loop body is idempotent. -/
theorem enrichFactorInfo_idem (data : Data) (f : FactorInfo) :
    enrichFactorInfo data (enrichFactorInfo data f) = enrichFactorInfo data f := by
  unfold enrichFactorInfo
  cases h : truthyNat f.factor_id with
  | none => simp only [h]
  | some i => simp only [h, optOrIdem]

/-- The parent-spark loop body is idempotent. -/
theorem enrichParentSpark_idem (data : Data) (f : FactorInfo) :
    enrichParentSpark data (enrichParentSpark data f) = enrichParentSpark data f := by
  unfold enrichParentSpark
  cases h : truthyNat f.factor_id with
  | none => simp only [h]
  | some i => simp only [h, optOrIdem]

/-- The support-card loop body is idempotent. -/
theorem enrichSupport_idem (data : Data) (s : SupportEntry) :
    enrichSupport data (enrichSupport data s) = enrichSupport data s := by
  unfold enrichSupport
  cases h : truthyNat s.support_card_id with
  | none => simp only [h]
  | some i => simp only [h, optOrIdem]

/-- The per-skill assignments never touch the skill id. -/
theorem applySkillDetails_skill_id (s : Skill) (nm : Option String)
    (det : Option SkillDetails) :
    (applySkillDetails s nm det).skill_id = s.skill_id := by
  cases det <;> rfl

/-- Re-applying the per-skill assignments changes nothing. -/
theorem applySkillDetails_idem (s : Skill) (nm : Option String) (det : Option SkillDetails) :
    applySkillDetails (applySkillDetails s nm det) nm det
      = applySkillDetails s nm det := by
  cases det with
  | none => simp only [applySkillDetails, optOrIdem]
  | some d => simp only [applySkillDetails, optOrIdem]

/-- The skill loop body is idempotent on its successes. -/
theorem enrichSkill_idem (data : Data) :
    ∀ s s' : Skill, enrichSkill data s = Except.ok s' → enrichSkill data s' = Except.ok s' := by
  intro s s' h
  unfold enrichSkill at h ⊢
  cases hid : truthyNat s.skill_id with
  | none =>
    simp only [hid] at h
    injection h with h
    subst h
    simp only [hid]
  | some i =>
    simp only [hid] at h
    cases hdet : get_skill_details data i with
    | error e =>
      rw [hdet] at h
      exact Except.noConfusion h
    | ok det =>
      rw [hdet] at h
      injection h with h
      subst h
      simp only [applySkillDetails_skill_id, hid, hdet, applySkillDetails_idem]

/-- The succession loop body is idempotent on its successes. -/
theorem enrichParent_idem (data : Data) :
    ∀ p p' : ParentRecord, enrichParent data p = Except.ok p' →
      enrichParent data p' = Except.ok p' := by
  intro p p' h
  unfold enrichParent at h ⊢
  cases hid : truthyNat p.card_id with
  | none =>
    simp only [hid] at h
    injection h with h
    subst h
    simp only [hid]
  | some i =>
    simp only [hid] at h
    cases hci : get_chara_info data i with
    | error e =>
      rw [hci] at h
      exact Except.noConfusion h
    | ok info =>
      rw [hci] at h
      injection h with h
      subst h
      simp only [hid, hci, optOrIdem, mapIdem (enrichParentSpark_idem data)]

/-- Claim C2: enrichment is idempotent — whenever `enrich_character`
succeeds, applying it again to the result returns exactly the same
record: the second run adds no new fields, duplicates nothing and changes
no derived value. -/
theorem claim_C2 :
    ∀ (data : Data) (c c' : CharRecord),
    enrich_character data c = Except.ok c' → enrich_character data c' = Except.ok c' := by
  intro data c c' h
  unfold enrich_character at h ⊢
  cases hci : charaInfoOpt data c.card_id with
  | error e =>
    rw [hci] at h
    exact Except.noConfusion h
  | ok cinfo =>
    simp only [hci] at h
    cases hsk : mapE (enrichSkill data) c.skill_array with
    | error e =>
      rw [hsk] at h
      exact Except.noConfusion h
    | ok skills =>
      simp only [hsk] at h
      cases hpar : mapE (enrichParent data) c.succession_chara_array with
      | error e =>
        rw [hpar] at h
        exact Except.noConfusion h
      | ok parents =>
        simp only [hpar] at h
        injection h with h
        subst h
        have hsk2 := mapE_idem (enrichSkill_idem data) hsk
        have hpar2 := mapE_idem (enrichParent_idem data) hpar
        simp only [hci, hsk2, hpar2, optOrIdem,
          mapIdem (enrichFactorInfo_idem data), mapIdem (enrichSupport_idem data)]

/-- Witness for C2: a concrete successful enrichment under `dSkillTrait`
whose output re-enriches to itself. -/
theorem claim_C2_witness : enrich_character dSkillTrait cWOut = Except.ok cWOut :=
  claim_C2 dSkillTrait cW cWOut rfl
